import Mathlib

/-!
Verification of the market-research bot (`src/bot.py`) against its
natural-language specification.

The development shallowly embeds the Python source.  External collaborators
(the Nominatim geocoder, `pd.read_csv`, the OpenAI chat endpoint, the Discord
channel) are modelled as explicit inputs describing the observable
collaborator outcome; the Python functions themselves are translated directly.
Python exceptions are modelled with `Except Unit` (report assembly) or with
explicit outcome constructors (collaborator calls); a Python function that
catches every exception and returns `None` becomes a total Lean function
returning `Option`.  Numeric cell values are modelled as exact integers or
exact decimals (`Value.dec m d` denotes `m / 10^d`); a missing CSV cell
(pandas `NaN`) is `Value.nan`, which Python renders as "nan" under `str`,
`:,` and `:,.2f` alike.  Python string primitives (`replace`, `strip`,
`lower`, `startswith`) are re-implemented over `List Char` so that every
definition evaluates by kernel reduction; `lower` is modelled on ASCII,
which covers every string the program compares.
-/

set_option maxRecDepth 40000

namespace MarketBot

/-! ## Python string primitives -/

/-- Boolean test that the first character list begins with the second. -/
def chStarts : List Char → List Char → Bool
  | _, [] => true
  | [], _ :: _ => false
  | a :: s, b :: p => a == b && chStarts s p

/-- Boolean test that the second character list occurs somewhere inside the
first, the substring-search semantics of the Python `in` operator. -/
def chHas : List Char → List Char → Bool
  | [], p => chStarts [] p
  | a :: rest, p => chStarts (a :: rest) p || chHas rest p

/-- String-level wrapper around `chHas`. -/
def strHas (s pat : String) : Bool := chHas s.data pat.data

/-- Fuel-indexed worker for `pyReplace`: replaces every leftmost,
non-overlapping occurrence of `pat` by `rep`, exactly as Python
`str.replace` does.  The fuel is the length of the subject, which every
step decreases. -/
def replaceFrom : Nat → List Char → List Char → List Char → List Char
  | _, [], _, _ => []
  | 0, s, _, _ => s
  | fuel + 1, a :: s, pat, rep =>
    if chStarts (a :: s) pat then rep ++ replaceFrom fuel (List.drop pat.length (a :: s)) pat rep
    else a :: replaceFrom fuel s pat rep

/-- Python `str.replace(pat, rep)`: every occurrence, left to right,
non-overlapping.  (The source only ever calls it with a non-empty
pattern.) -/
def pyReplace (s pat rep : String) : String :=
  String.mk (replaceFrom s.data.length s.data pat.data rep.data)

/-- Characters removed by Python `str.strip()` (ASCII whitespace). -/
def pySpace (c : Char) : Bool :=
  c == ' ' || c == '\t' || c == '\n' || c == '\r' || c == '\x0b' || c == '\x0c'

/-- Python `str.strip()`: drop leading and trailing whitespace. -/
def pyStrip (s : String) : String :=
  String.mk (((s.data.dropWhile pySpace).reverse.dropWhile pySpace).reverse)

/-- ASCII lower-casing of a single character, the fragment of Python
`str.lower()` exercised by the program (state names and county keys are
ASCII). -/
def charLower (c : Char) : Char :=
  if 'A' ≤ c && c ≤ 'Z' then Char.ofNat (c.toNat + 32) else c

/-- Python `str.lower()` on ASCII text. -/
def pyLower (s : String) : String := String.mk (s.data.map charLower)

/-- Python `str.startswith(pat)`. -/
def pyStartsWith (s pat : String) : Bool := chStarts s.data pat.data

/-- Python `str.endswith(pat)`. -/
def pyEndsWith (s pat : String) : Bool := chStarts s.data.reverse pat.data.reverse

/-! ## Cell values and records -/

/-- One cell of a dataset row as seen by the Python code: an exact integer,
an exact decimal `m / 10^d`, pandas `NaN` (a null cell), or a string. -/
inductive Value where
  | int (n : Int)
  | dec (m : Int) (d : Nat)
  | nan
  | str (s : String)
deriving DecidableEq

/-- A `MarketRecord`: the dictionary `df.iloc[0].to_dict()` hands to the
report code, as an association list from column name to cell value. -/
abbrev Record := List (String × Value)

/-- Python `dict.get(k)` (no default): the first binding of `k`, if any. -/
def Record.get? (r : Record) (k : String) : Option Value :=
  (r.find? (fun kv => kv.1 == k)).map (fun kv => kv.2)

/-- Python `dict.get(k, d)`: the binding of `k`, defaulting to `d`. -/
def Record.getD (r : Record) (k : String) (d : Value) : Value :=
  (Record.get? r k).getD d

/-! ## Python number formatting -/

/-- Pad a digit string on the left with zeros up to width `n`. -/
def padLeftZeros (s : String) (n : Nat) : String :=
  if s.length < n then String.mk (List.replicate (n - s.length) '0') ++ s else s

/-- Split the decimal `m / 10^d` into its integer-part digits and its `d`
fraction digits (of the absolute value). -/
def decSplitInt (m : Int) (d : Nat) : String × String :=
  let s := padLeftZeros (toString m.natAbs) (d + 1)
  (String.mk (s.data.take (s.data.length - d)), String.mk (s.data.drop (s.data.length - d)))

/-- Python `str()` of the float `m / 10^d` (exact short decimals, the only
floats the dataset model produces). -/
def decRepr (m : Int) (d : Nat) : String :=
  (if m < 0 then "-" else "") ++ (decSplitInt m d).1 ++ "." ++ (decSplitInt m d).2

/-- Python `str(v)` / plain `{v}` f-string interpolation. -/
def pyStr : Value → String
  | .int n => toString n
  | .dec m d => decRepr m d
  | .nan => "nan"
  | .str s => s

/-- Insert a comma after every third character of a reversed digit list:
the worker for thousands grouping. -/
def commaChunk : List Char → List Char
  | a :: b :: c :: d :: rest => a :: b :: c :: ',' :: commaChunk (d :: rest)
  | l => l

/-- Thousands-group a digit string, the Python `,` format option. -/
def groupDigits (s : String) : String :=
  String.mk ((commaChunk s.data.reverse).reverse)

/-- Python f-string `{v:,}`: thousands grouping.  Valid for numbers, renders
`NaN` as "nan", and raises `ValueError` on a string value — the fact behind
the `Population` line. -/
def pyFormatComma : Value → Except Unit String
  | .int n => .ok ((if n < 0 then "-" else "") ++ groupDigits (toString n.natAbs))
  | .dec m d => .ok ((if m < 0 then "-" else "") ++ groupDigits (decSplitInt m d).1 ++ "." ++ (decSplitInt m d).2)
  | .nan => .ok "nan"
  | .str _ => .error ()

/-- Round `a / b` (with `b > 0`) to the nearest integer, ties to even —
the rounding Python fixed-point formatting applies to exact decimals. -/
def roundHalfEven (a b : Int) : Int :=
  let q := Int.fdiv a b
  let r := a - q * b
  if 2 * r < b then q else if b < 2 * r then q + 1 else if q % 2 == 0 then q else q + 1

/-- Two-digit rendering of a number below 100. -/
def pad2 (n : Nat) : String :=
  if n < 10 then "0" ++ toString n else toString n

/-- Render a signed amount of cents as `d,ddd.cc`. -/
def centsRepr (c : Int) : String :=
  (if c < 0 then "-" else "") ++ groupDigits (toString (c.natAbs / 100)) ++ "." ++ pad2 (c.natAbs % 100)

/-- Python f-string `{v:,.2f}`: two fixed decimals with thousands grouping.
Valid for numbers, renders `NaN` as "nan", raises `ValueError` on a
string value. -/
def pyFormat2f : Value → Except Unit String
  | .int n => .ok (centsRepr (n * 100))
  | .dec m d =>
    .ok (centsRepr (if d ≤ 2 then m * ((10 : Int) ^ (2 - d)) else roundHalfEven m ((10 : Int) ^ (d - 2))))
  | .nan => .ok "nan"
  | .str _ => .error ()

/-! ## The state abbreviation table (`states` in `get_county_from_address`) -/

/-- The 50-entry state table of `bot.py`, lowercased full name to two-letter
code. -/
def states : List (String × String) :=
  [("alabama", "AL"), ("alaska", "AK"), ("arizona", "AZ"), ("arkansas", "AR"),
   ("california", "CA"), ("colorado", "CO"), ("connecticut", "CT"), ("delaware", "DE"),
   ("florida", "FL"), ("georgia", "GA"), ("hawaii", "HI"), ("idaho", "ID"),
   ("illinois", "IL"), ("indiana", "IN"), ("iowa", "IA"), ("kansas", "KS"),
   ("kentucky", "KY"), ("louisiana", "LA"), ("maine", "ME"), ("maryland", "MD"),
   ("massachusetts", "MA"), ("michigan", "MI"), ("minnesota", "MN"), ("mississippi", "MS"),
   ("missouri", "MO"), ("montana", "MT"), ("nebraska", "NE"), ("nevada", "NV"),
   ("new hampshire", "NH"), ("new jersey", "NJ"), ("new mexico", "NM"), ("new york", "NY"),
   ("north carolina", "NC"), ("north dakota", "ND"), ("ohio", "OH"), ("oklahoma", "OK"),
   ("oregon", "OR"), ("pennsylvania", "PA"), ("rhode island", "RI"), ("south carolina", "SC"),
   ("south dakota", "SD"), ("tennessee", "TN"), ("texas", "TX"), ("utah", "UT"),
   ("vermont", "VT"), ("virginia", "VA"), ("washington", "WA"), ("west virginia", "WV"),
   ("wisconsin", "WI"), ("wyoming", "WY")]

/-- Python `states.get(name)`. -/
def statesLookup (s : String) : Option String :=
  (states.find? (fun kv => kv.1 == s)).map (fun kv => kv.2)

/-! ## County resolver (`get_county_from_address`) -/

/-- Observable outcome of the `geolocator.geocode` call: the call raised, it
returned no location, or it returned a location whose structured address
carries optional `county` and `state` fields. -/
inductive GeoResult where
  | geoError
  | noLocation
  | located (county state : Option String)

/-- Embedding of `get_county_from_address` (`bot.py` lines 17–54) over the
geocoder outcome.  A raised exception is caught and mapped to `None`; a
missing or empty (Python-falsy) county, and a state absent from the table,
also yield `None`; otherwise every occurrence of the literal `" County"` is
removed from the county, the result is stripped, and `"county, ABBR"` is
returned. -/
def get_county_from_address (g : GeoResult) : Option String :=
  match g with
  | .geoError => none
  | .noLocation => none
  | .located county? state? =>
    match county? with
    | none => none
    | some county =>
      if county == "" then none
      else
        match statesLookup (pyLower (state?.getD "")) with
        | none => none
        | some abbr => some (pyStrip (pyReplace county " County" "") ++ ", " ++ abbr)

/-! ## Dataset lookup (`get_market_data`) -/

/-- The row filter `df["County"].str.lower() == county_name.lower()`: the
`County` cell of the row is a string equal, lowercased, to the key lowercased.
A missing or non-string cell never matches. -/
def countyMatches (key : String) (r : Record) : Bool :=
  match Record.get? r "County" with
  | some (Value.str s) => pyLower s == pyLower key
  | _ => false

/-- Embedding of `get_market_data` (`bot.py` lines 127–137).  The `load`
argument is the outcome of `pd.read_csv("merged_reventure_data.csv")`:
`none` when loading raised (the `except` branch returns `None`), otherwise
the parsed rows.  On success the first matching row is returned
(`county_data_row.iloc[0].to_dict()`), else `None`. -/
def get_market_data (load : Option (List Record)) (key : String) : Option Record :=
  match load with
  | none => none
  | some rows => rows.find? (countyMatches key)

/-- The lines `get_market_data` appends to any log file on disk.  The source
performs no file write on any path (there is no miss-log code in
`bot.py`), so the append list is empty for every input. -/
def get_market_data_log (load : Option (List Record)) (key : String) : List String := []

/-! ## Report assembly (the `raw_data_string` f-string, `bot.py` 175–195) -/

/-- One plain `{data.get(k, "N/A")}` interpolation: the cell rendered by
`str`, or the literal `N/A` when the key is absent. -/
def fmtPlain (r : Record) (k : String) : String :=
  match Record.get? r k with
  | none => "N/A"
  | some v => pyStr v

/-- Text of the market-stats block after its header. -/
def marketBlock (r : Record) : String :=
  "\nDays on Market: " ++ fmtPlain r "Days_on_Market" ++
  "\nDays on Market Growth (YoY): " ++ fmtPlain r "Days_On_Market_Growth_YoY" ++
  "%\nHome Sales Growth (YoY): " ++ fmtPlain r "Home_Sales_Growth_YoY" ++
  "%\nSale Inventory Growth (YoY): " ++ fmtPlain r "Sale_Inventory_Growth_YoY" ++
  "%\nInventory Surplus/Deficit: " ++ fmtPlain r "Inventory_Surplus_Deficit" ++
  "%\nPrice Cut %: " ++ fmtPlain r "Price_Cut_Percentage" ++ "%\n\n"

/-- Text of the demographic-stats block after its header; `pop` is the
already-formatted `{data.get("Population", "N/A"):,}` interpolation. -/
def demoBlock (r : Record) (pop : String) : String :=
  "\nPopulation: " ++ pop ++
  "\nPopulation Growth: " ++ fmtPlain r "Population_Growth" ++
  "%\nMedian Age: " ++ fmtPlain r "Median_Age" ++ "\n\n"

/-- Text of the investor-stats block after its header; `avg` is the
already-formatted `{data.get("Avg_Home_Value", 0):,.2f}` interpolation. -/
def investorBlock (r : Record) (avg : String) : String :=
  "\nAvg Home Value: $" ++ avg ++
  "\nHome Value Growth (YoY): " ++ fmtPlain r "Home_Value_Growth_YoY" ++
  "%\nCap Rate %: " ++ fmtPlain r "Cap_Rate" ++
  "%\nVacancy Rate: " ++ fmtPlain r "Vacancy_Rate" ++
  "%\nHousing Unit Growth Rate: " ++ fmtPlain r "Housing_Unit_Growth_Rate" ++ "%\n\n"

/-- Text of the scoring-stats block after its header. -/
def scoringBlock (r : Record) : String :=
  "\nHome Price Forecast: " ++ fmtPlain r "Home_Price_Forecast"

/-- Embedding of the `raw_data_string` f-string (`bot.py` lines 175–195).
Evaluating the f-string raises exactly when one of its two format-spec
interpolations does: `{...Population...:,}` (string default `"N/A"` when
the key is absent) or `{...Avg_Home_Value...:,.2f}` (default `0`); the
plain interpolations cannot raise.  On success the value is the full
report text, the four category headers in source order. -/
def raw_data_string (r : Record) : Except Unit String := do
  let pop ← pyFormatComma (Record.getD r "Population" (Value.str "N/A"))
  let avg ← pyFormat2f (Record.getD r "Avg_Home_Value" (Value.int 0))
  pure ("**Market Stats**" ++ marketBlock r ++ "**Demographic Stats**" ++ demoBlock r pop ++
        "**Investor Stats**" ++ investorBlock r avg ++ "**Scoring Stats**" ++ scoringBlock r)

/-! ## AI analysis (`analyze_market_with_ai`, `bot.py` 56–125) -/

/-- The message returned when the model answer is Python-falsy (`None` or
the empty string). -/
def aiEmptyMsg : String :=
  "AI analysis returned empty. There might be an issue with the prompt or a content filter."

/-- Embedding of the `data_string` f-string built before the `try` block
(`bot.py` lines 62–75).  Its only fallible interpolation is
`{market_data.get("Avg_Home_Value", 0):,.2f}`. -/
def data_string (r : Record) : Except Unit String := do
  let avg ← pyFormat2f (Record.getD r "Avg_Home_Value" (Value.int 0))
  pure ("Days on Market: " ++ fmtPlain r "Days_on_Market" ++
        ", Home Sales Growth (YoY): " ++ fmtPlain r "Home_Sales_Growth_YoY" ++
        "%, Sale Inventory Growth (YoY): " ++ fmtPlain r "Sale_Inventory_Growth_YoY" ++
        "%, Population Growth: " ++ fmtPlain r "Population_Growth" ++
        "%, Avg Home Value: $" ++ avg ++
        ", Home Value Growth (YoY): " ++ fmtPlain r "Home_Value_Growth_YoY" ++
        "%, Cap Rate: " ++ fmtPlain r "Cap_Rate" ++
        "%, Home Price Forecast: " ++ fmtPlain r "Home_Price_Forecast" ++
        ", Inventory Surplus/Deficit: " ++ fmtPlain r "Inventory_Surplus_Deficit" ++
        "%, Price Cut %: " ++ fmtPlain r "Price_Cut_Percentage" ++
        "%, Vacancy Rate: " ++ fmtPlain r "Vacancy_Rate" ++
        "%, Housing Unit Growth Rate: " ++ fmtPlain r "Housing_Unit_Growth_Rate" ++ "%")

/-- Observable outcome of the OpenAI call: it raised (with `str(e)` as
`msg`), or it returned a message whose `content` is `None` or a string. -/
inductive ApiOutcome where
  | apiRaise (msg : String)
  | apiOk (content : Option String)

/-- Embedding of `analyze_market_with_ai` (`bot.py` lines 56–125).  The
`data_string` (and the prompt around it) is built before the `try`, so a
formatting exception propagates; inside the `try`, any raised exception is
caught and turned into the `Error: ...` text, and a falsy answer into
`aiEmptyMsg`.  The function otherwise returns the model text. -/
def analyze_market_with_ai (r : Record) (api : ApiOutcome) : Except Unit String := do
  let _ ← data_string r
  match api with
  | .apiRaise msg => pure ("Error: Could not get analysis from AI. Details: " ++ msg)
  | .apiOk content =>
    match content with
    | none => pure aiEmptyMsg
    | some c => pure (if c == "" then aiEmptyMsg else c)

/-! ## Discord message handler (`on_message`, `bot.py` 150–214) -/

/-- One observable Discord operation performed by the handler. -/
inductive Action where
  | send (text : String)
  | sendEmbed (title desc : String)
  | editTo (text : String)
  | editEmbedTo (text title desc : String)
deriving DecidableEq

/-- Observable behaviour of the handler: the operations it performed, in
order, and whether it escaped with an uncaught exception. -/
structure Trace where
  actions : List Action
  raised : Bool
deriving DecidableEq

/-- The embed title `f"Raw Data for ... data.get(..County..) ..."` renders a missing
key as Python `str(None)`. -/
def countyTitle (r : Record) : String :=
  match Record.get? r "County" with
  | none => "None"
  | some v => pyStr v

/-- Embedding of the `on_message` handler (`bot.py` lines 150–214) over the
three collaborator outcomes.  The author check precedes everything; the
command prefix is removed with `str.replace` and stripped; each stage
either edits the status message with its failure text or continues; the
raw-data embed is sent before the AI call, so an analysis outcome never
undoes it. -/
def on_message (selfAuthor : Bool) (content : String) (geo : GeoResult)
    (load : Option (List Record)) (api : ApiOutcome) : Trace :=
  if selfAuthor then ⟨[], false⟩
  else if pyStartsWith content "!market" then
    let address := pyStrip (pyReplace content "!market" "")
    if address == "" then ⟨[Action.send "Please provide a full address."], false⟩
    else
      let status := Action.send ("🔬 Analyzing `" ++ address ++ "`...")
      match get_county_from_address geo with
      | none => ⟨[status, Action.editTo ("❌ Could not determine the county from `" ++ address ++ "`.")], false⟩
      | some county =>
        match get_market_data load county with
        | none => ⟨[status, Action.editTo ("❌ No data found for `" ++ county ++ "` in the CSV file.")], false⟩
        | some row =>
          match raw_data_string row with
          | .error _ => ⟨[status], true⟩
          | .ok raw =>
            match analyze_market_with_ai row api with
            | .error _ =>
              ⟨[status, Action.editTo "✅ Data found! Here are the stats:",
                Action.sendEmbed ("Raw Data for " ++ countyTitle row) raw,
                Action.send "🤖 Now sending to AI for analysis and talking points..."], true⟩
            | .ok ai =>
              ⟨[status, Action.editTo "✅ Data found! Here are the stats:",
                Action.sendEmbed ("Raw Data for " ++ countyTitle row) raw,
                Action.send "🤖 Now sending to AI for analysis and talking points...",
                Action.editEmbedTo "" "AI Analysis & Conversation Starters" ai], false⟩
  else ⟨[], false⟩

/-! ## Spec-side comparator for the resolver claim -/

/-- Modelled from the spec: the county normalization the specification
describes — "strips a trailing literal `\x22 County\x22` token
(case-sensitive exact suffix) and surrounding whitespace".  Declared only
to compare the specified suffix-stripping with the
replace-everywhere of the source. -/
def specStripCountySuffix (c : String) : String :=
  pyStrip (if pyEndsWith c " County" then String.mk (c.data.take (c.data.length - 7)) else c)

/-! ## Concrete data used by witnesses and counterexamples -/

/-- A dataset row for Yadkin county. -/
def rowYadkin : Record :=
  [("County", Value.str "Yadkin, NC"), ("Population", Value.int 37000)]

/-- A dataset row for Cabarrus county. -/
def rowCabarrus : Record :=
  [("County", Value.str "Cabarrus, NC"), ("Population", Value.int 225000),
   ("Days_on_Market", Value.int 30)]

/-- A two-row demo dataset. -/
def demoRows : List Record := [rowYadkin, rowCabarrus]

/-- A demo dataset with no row for Cabarrus. -/
def rowsNoMatch : List Record := [rowYadkin]

/-- A record holding only a population cell. -/
def c3rec : Record := [("Population", Value.int 125000)]

/-- The report text the source renders for `c3rec`. -/
def c3out : String :=
  "**Market Stats**\nDays on Market: N/A\nDays on Market Growth (YoY): N/A%\nHome Sales Growth (YoY): N/A%\nSale Inventory Growth (YoY): N/A%\nInventory Surplus/Deficit: N/A%\nPrice Cut %: N/A%\n\n**Demographic Stats**\nPopulation: 125,000\nPopulation Growth: N/A%\nMedian Age: N/A\n\n**Investor Stats**\nAvg Home Value: $0.00\nHome Value Growth (YoY): N/A%\nCap Rate %: N/A%\nVacancy Rate: N/A%\nHousing Unit Growth Rate: N/A%\n\n**Scoring Stats**\nHome Price Forecast: N/A"

/-- A dataset row for Cabarrus whose report text is `c3out` (the `County`
cell is not among the rendered fields). -/
def rowWitness : Record :=
  [("County", Value.str "Cabarrus, NC"), ("Population", Value.int 125000)]

/-- A geocoder outcome resolving to Cabarrus county, North Carolina. -/
def geoCabarrus : GeoResult :=
  GeoResult.located (some "Cabarrus County") (some "North Carolina")

/-! ## Helper lemmas -/

/-- Every character list starts with the empty pattern. -/
theorem chStarts_nil (s : List Char) : chStarts s [] = true := by
  cases s <;> rfl

/-- A character list starts with any of its own prefixes. -/
theorem chStarts_self_append (p y : List Char) : chStarts (p ++ y) p = true := by
  induction p with
  | nil => exact chStarts_nil _
  | cons a p ih => simp [chStarts, ih]

/-- A starting occurrence is an occurrence. -/
theorem chHas_of_chStarts (s p : List Char) (h : chStarts s p = true) : chHas s p = true := by
  cases s with
  | nil => exact h
  | cons a rest => simp [chHas, h]

/-- Occurrences survive prepending. -/
theorem chHas_append_left (x s p : List Char) (h : chHas s p = true) :
    chHas (x ++ s) p = true := by
  induction x with
  | nil => exact h
  | cons a x ih => simp [chHas, ih]

/-- A string occurs in any sandwich around it. -/
theorem strHas_sandwich (a p b : String) : strHas (a ++ p ++ b) p = true := by
  unfold strHas
  rw [String.data_append, String.data_append, List.append_assoc]
  exact chHas_append_left _ _ _ (chHas_of_chStarts _ _ (chStarts_self_append _ _))

/-- A record with no `Population` binding makes the report raise: the
string default `"N/A"` meets the `:,` format spec. -/
theorem raw_error_of_no_population (r : Record) (h : Record.get? r "Population" = none) :
    raw_data_string r = Except.error () := by
  unfold raw_data_string Record.getD
  rw [h]
  rfl

/-- With no matching row, the row filter of `get_market_data` finds
nothing. -/
theorem get_market_data_no_match (rows : List Record) (key : String)
    (h : ∀ r ∈ rows, countyMatches key r = false) :
    get_market_data (some rows) key = none := by
  unfold get_market_data
  exact List.find?_eq_none.mpr (fun r hr => by simp [h r hr])

/-! ## C1 — county key construction -/

/-- C1 counterexample: for the geocoded county `"Foo County Bar"` in
Alabama, the code removes the inner `" County"` occurrence and returns
`"Foo Bar, AL"`, while the claim (strip only a trailing case-sensitive
`" County"` suffix) predicts `"Foo County Bar, AL"`. -/
theorem c1_counterexample :
    get_county_from_address (GeoResult.located (some "Foo County Bar") (some "Alabama")) =
      some "Foo Bar, AL" ∧
    specStripCountySuffix "Foo County Bar" = "Foo County Bar" ∧
    get_county_from_address (GeoResult.located (some "Foo County Bar") (some "Alabama")) ≠
      some (specStripCountySuffix "Foo County Bar" ++ ", AL") :=
  ⟨by decide, by decide, by decide⟩

/-- C1 (amended): for every geocoder response with a non-empty county and a
state whose lowercased full name is in the table, `get_county_from_address`
returns `"{county}, {abbr}"` where `{county}` is the returned county with
every occurrence of the literal `" County"` removed (not only a trailing
suffix) and the result stripped of surrounding whitespace. -/
theorem c1_county_key (c st abbr : String) (hc : ¬ c = "")
    (habbr : statesLookup (pyLower st) = some abbr) :
    get_county_from_address (GeoResult.located (some c) (some st)) =
      some (pyStrip (pyReplace c " County" "") ++ ", " ++ abbr) := by
  have hceq : (c == "") = false := beq_eq_false_iff_ne.mpr hc
  simp [get_county_from_address, hceq, Option.getD, habbr]

/-- C1 witness: instantiating the amended claim at Cabarrus County, North
Carolina yields the key `"Cabarrus, NC"`. -/
theorem c1_witness :
    get_county_from_address (GeoResult.located (some "Cabarrus County") (some "North Carolina")) =
      some "Cabarrus, NC" :=
  (c1_county_key "Cabarrus County" "North Carolina" "NC" (by decide) (by decide)).trans (by decide)

/-! ## C2 — missing county: result and miss log -/

/-- C2 counterexample: for the unmatched key `"Cabarrus, NC"`, the lookup
returns `none` but appends nothing to any log file — not the one line the
claim requires. -/
theorem c2_counterexample :
    get_market_data (some rowsNoMatch) "Cabarrus, NC" = none ∧
    get_market_data_log (some rowsNoMatch) "Cabarrus, NC" = [] ∧
    get_market_data_log (some rowsNoMatch) "Cabarrus, NC" ≠ ["Cabarrus, NC"] :=
  ⟨by decide, rfl, by decide⟩

/-- C2 (amended): for every key matching no row, `get_market_data` returns
`NotFound` (`None`) and appends nothing to any file — `bot.py` maintains no
miss log. -/
theorem c2_lookup_miss (rows : List Record) (key : String)
    (h : ∀ r ∈ rows, countyMatches key r = false) :
    get_market_data (some rows) key = none ∧
    get_market_data_log (some rows) key = [] :=
  ⟨get_market_data_no_match rows key h, rfl⟩

/-- C2 witness: the amended claim applied to the no-match demo dataset. -/
theorem c2_witness :
    get_market_data (some rowsNoMatch) "Durham, NC" = none ∧
    get_market_data_log (some rowsNoMatch) "Durham, NC" = [] :=
  c2_lookup_miss rowsNoMatch "Durham, NC" (by decide)

/-! ## C3 — per-field report formatting -/

/-- C3 counterexample: for a record with `Population` present and
`Avg_Home_Value` absent, `bot.py` renders the line
`Avg Home Value: $0.00` (the f-string defaults the value to `0`), so the
report never shows `N/A` for that absent field, contradicting the claim. -/
theorem c3_counterexample :
    Record.get? c3rec "Avg_Home_Value" = none ∧
    raw_data_string c3rec = Except.ok c3out ∧
    strHas c3out "Avg Home Value: $0.00" = true ∧
    ∀ a b : String, c3out ≠ a ++ "Avg Home Value: N/A" ++ b := by
  refine ⟨rfl, by rfl, by rfl, ?_⟩
  intro a b hab
  have h1 : strHas c3out "Avg Home Value: N/A" = true := by
    rw [hab]; exact strHas_sandwich a "Avg Home Value: N/A" b
  have h2 : strHas c3out "Avg Home Value: N/A" = false := by rfl
  exact Bool.noConfusion (h1.symm.trans h2)

/-- C3 (amended): absent fields render `N/A` — except `Avg_Home_Value`,
which defaults to `0` and renders `$0.00`, and `Population`, whose
rendering raises, producing no report at all; a null (`NaN`) cell renders
`nan`, not `N/A`; present values follow the formatting rules — currency
`350000.5` renders `350,000.50` after the literal `$`, percentage fields
append `%`, `Population` gets grouping separators, strings render
as-is. -/
theorem c3_field_rendering :
    (∀ r k, Record.get? r k = none → fmtPlain r k = "N/A") ∧
    (∀ r k s, Record.get? r k = some (Value.str s) → fmtPlain r k = s) ∧
    (∀ r k, Record.get? r k = some Value.nan → fmtPlain r k = "nan") ∧
    (∀ r, Record.get? r "Avg_Home_Value" = none →
      pyFormat2f (Record.getD r "Avg_Home_Value" (Value.int 0)) = Except.ok "0.00") ∧
    (∀ r, Record.get? r "Population" = none → raw_data_string r = Except.error ()) ∧
    pyFormat2f (Value.dec 3500005 1) = Except.ok "350,000.50" ∧
    pyFormatComma (Value.int 125000) = Except.ok "125,000" ∧
    fmtPlain [("Cap_Rate", Value.int 4)] "Cap_Rate" ++ "%" = "4%" := by
  refine ⟨?_, ?_, ?_, ?_, raw_error_of_no_population, by rfl, by rfl, by rfl⟩
  · intro r k h; unfold fmtPlain; rw [h]
  · intro r k s h; unfold fmtPlain; rw [h]; rfl
  · intro r k h; unfold fmtPlain; rw [h]; rfl
  · intro r h; unfold Record.getD; rw [h]; rfl

/-- C3 witness: the amended rendering rules applied at concrete records. -/
theorem c3_witness :
    fmtPlain [] "Days_on_Market" = "N/A" ∧
    fmtPlain [("County", Value.str "Cabarrus, NC")] "County" = "Cabarrus, NC" ∧
    fmtPlain [("Cap_Rate", Value.nan)] "Cap_Rate" = "nan" ∧
    pyFormat2f (Record.getD [] "Avg_Home_Value" (Value.int 0)) = Except.ok "0.00" ∧
    raw_data_string [("Median_Age", Value.int 40)] = Except.error () :=
  ⟨c3_field_rendering.1 [] "Days_on_Market" rfl,
   c3_field_rendering.2.1 [("County", Value.str "Cabarrus, NC")] "County" "Cabarrus, NC" rfl,
   c3_field_rendering.2.2.1 [("Cap_Rate", Value.nan)] "Cap_Rate" rfl,
   c3_field_rendering.2.2.2.1 [] rfl,
   c3_field_rendering.2.2.2.2.1 [("Median_Age", Value.int 40)] rfl⟩

/-! ## C4 — dataset-unavailable is not a distinct failure -/

/-- C4 counterexample: a failed dataset load (`none`) and a loaded dataset
with no matching row produce the same `None` from `get_market_data` and the
same user-facing trace from `on_message` — there is no distinct
`DatasetUnavailable` signal or message. -/
theorem c4_counterexample :
    get_market_data none "Cabarrus, NC" = none ∧
    get_market_data none "Cabarrus, NC" = get_market_data (some rowsNoMatch) "Cabarrus, NC" ∧
    on_message false "!market 155 Edinburg Dr" geoCabarrus none (ApiOutcome.apiOk (some "ok")) =
      on_message false "!market 155 Edinburg Dr" geoCabarrus (some rowsNoMatch)
        (ApiOutcome.apiOk (some "ok")) ∧
    (on_message false "!market 155 Edinburg Dr" geoCabarrus none
        (ApiOutcome.apiOk (some "ok"))).actions =
      [Action.send "🔬 Analyzing `155 Edinburg Dr`...",
       Action.editTo "❌ No data found for `Cabarrus, NC` in the CSV file."] :=
  ⟨rfl, by decide, by decide, by decide⟩

/-- C4 (amended): when the dataset cannot be loaded, `get_market_data`
catches the exception and returns the same `None` a no-match returns, and
`on_message` behaves identically in the two cases (same
`❌ No data found ...` message): the caller cannot distinguish them. -/
theorem c4_dataset_failure_indistinct (key content : String) (geo : GeoResult)
    (api : ApiOutcome) (rows : List Record)
    (hgeo : get_county_from_address geo = some key)
    (hrows : ∀ r ∈ rows, countyMatches key r = false) :
    get_market_data none key = none ∧
    get_market_data none key = get_market_data (some rows) key ∧
    on_message false content geo none api = on_message false content geo (some rows) api := by
  have hfind := get_market_data_no_match rows key hrows
  refine ⟨rfl, hfind.symm, ?_⟩
  unfold on_message
  cases hs : pyStartsWith content "!market"
  · rfl
  · by_cases ha : pyStrip (pyReplace content "!market" "") = ""
    · simp [ha]
    · simp [ha, hgeo, hfind]
      rfl

/-- C4 witness: the amended claim at a concrete resolved county and an
empty demo dataset. -/
theorem c4_witness :
    get_market_data none "Cabarrus, NC" = none ∧
    get_market_data none "Cabarrus, NC" = get_market_data (some rowsNoMatch) "Cabarrus, NC" ∧
    on_message false "!market 10 Main St" geoCabarrus none (ApiOutcome.apiOk (some "ok")) =
      on_message false "!market 10 Main St" geoCabarrus (some rowsNoMatch)
        (ApiOutcome.apiOk (some "ok")) :=
  c4_dataset_failure_indistinct "Cabarrus, NC" "!market 10 Main St" geoCabarrus
    (ApiOutcome.apiOk (some "ok")) rowsNoMatch (by decide) (by decide)

/-! ## C5 — resolver failure handling -/

/-- C5: the resolver returns `NotFound` (`None`) whenever the geocoder
raises, returns no location, returns a location without a county, returns
one without a state, or returns a state not in the table; being a total
function of the geocoder outcome, it never propagates an exception. -/
theorem c5_resolver_failures :
    get_county_from_address GeoResult.geoError = none ∧
    get_county_from_address GeoResult.noLocation = none ∧
    (∀ st, get_county_from_address (GeoResult.located none st) = none) ∧
    (∀ c, get_county_from_address (GeoResult.located (some c) none) = none) ∧
    (∀ c st, statesLookup (pyLower st) = none →
      get_county_from_address (GeoResult.located (some c) (some st)) = none) := by
  refine ⟨rfl, rfl, fun st => rfl, fun c => ?_, fun c st h => ?_⟩
  · unfold get_county_from_address
    cases hc : c == ""
    · simp [hc]
      rfl
    · simp [hc]
  · unfold get_county_from_address
    cases hc : c == "" <;> simp [hc, Option.getD, h]

/-- C5 witness: a Canadian province is not in the table, so the resolver
returns `None`. -/
theorem c5_witness :
    get_county_from_address (GeoResult.located (some "Durham") (some "Ontario")) = none :=
  c5_resolver_failures.2.2.2.2 "Durham" "Ontario" (by decide)

/-! ## C6 — first matching row wins -/

/-- C6: whenever the `County` cell of some row matches the key case-insensitively,
`get_market_data` returns exactly the first such row (every earlier row
fails the match), as a field-to-value mapping. -/
theorem c6_first_match (rows : List Record) (key : String)
    (h : ∃ r ∈ rows, countyMatches key r = true) :
    ∃ pre r post, rows = pre ++ r :: post ∧ countyMatches key r = true ∧
      (∀ p ∈ pre, countyMatches key p = false) ∧
      get_market_data (some rows) key = some r := by
  induction rows with
  | nil => obtain ⟨r, hr, _⟩ := h; cases hr
  | cons a l ih =>
    cases ha : countyMatches key a with
    | true =>
      exact ⟨[], a, l, rfl, ha, fun p hp => absurd hp (List.not_mem_nil p),
        List.find?_cons_of_pos _ ha⟩
    | false =>
      have h2 : ∃ r ∈ l, countyMatches key r = true := by
        obtain ⟨r, hr, hm⟩ := h
        cases List.mem_cons.mp hr with
        | inl he => subst he; rw [ha] at hm; cases hm
        | inr hl => exact ⟨r, hl, hm⟩
      obtain ⟨pre, r, post, heq, hm, hpre, hfind⟩ := ih h2
      refine ⟨a :: pre, r, post, by rw [heq]; rfl, hm, ?_, ?_⟩
      · intro p hp
        cases List.mem_cons.mp hp with
        | inl he => rw [he]; exact ha
        | inr h3 => exact hpre p h3
      · have hstep : List.find? (countyMatches key) (a :: l) = List.find? (countyMatches key) l :=
          List.find?_cons_of_neg _ (by simp [ha])
        exact hstep.trans hfind

/-- C6 witness: in the two-row demo dataset the key `"cabarrus, nc"`
matches the second row case-insensitively and that row is returned. -/
theorem c6_witness :
    ∃ pre r post, demoRows = pre ++ r :: post ∧ countyMatches "cabarrus, nc" r = true ∧
      (∀ p ∈ pre, countyMatches "cabarrus, nc" p = false) ∧
      get_market_data (some demoRows) "cabarrus, nc" = some r :=
  c6_first_match demoRows "cabarrus, nc" ⟨rowCabarrus, by decide, by decide⟩

/-! ## C7 — category headers -/

/-- Inversion of a successful report build: both format-spec interpolations
succeeded and the text is the four blocks in source order. -/
theorem raw_data_string_ok (r : Record) (s : String) (h : raw_data_string r = Except.ok s) :
    ∃ pop avg, pyFormatComma (Record.getD r "Population" (Value.str "N/A")) = Except.ok pop ∧
      pyFormat2f (Record.getD r "Avg_Home_Value" (Value.int 0)) = Except.ok avg ∧
      s = "**Market Stats**" ++ marketBlock r ++ "**Demographic Stats**" ++ demoBlock r pop ++
          "**Investor Stats**" ++ investorBlock r avg ++ "**Scoring Stats**" ++ scoringBlock r := by
  unfold raw_data_string at h
  cases hp : pyFormatComma (Record.getD r "Population" (Value.str "N/A")) with
  | error e => rw [hp] at h; exact Except.noConfusion h
  | ok pop =>
    rw [hp] at h
    cases hq : pyFormat2f (Record.getD r "Avg_Home_Value" (Value.int 0)) with
    | error e => rw [hq] at h; exact Except.noConfusion h
    | ok avg =>
      rw [hq] at h
      exact ⟨pop, avg, rfl, rfl, (Except.ok.inj h).symm⟩

/-- C7 counterexample: for the empty record (every field of every category
absent) the build raises and emits no report at all — so no headers are
emitted for it, contradicting the for-every-record claim. -/
theorem c7_counterexample :
    raw_data_string ([] : Record) = Except.error () ∧
    ∀ s, raw_data_string ([] : Record) ≠ Except.ok s := by
  refine ⟨rfl, fun s h => ?_⟩
  exact Except.noConfusion ((rfl : raw_data_string ([] : Record) = Except.error ()).symm.trans h)

/-- C7 (amended): every report the code does produce contains all four
category headers in the fixed source order, each followed by its block of
field lines; but a record whose rendering raises (for example one with no
`Population` key) produces no report at all. -/
theorem c7_category_headers (r : Record) (s : String) (h : raw_data_string r = Except.ok s) :
    ∃ t1 t2 t3 t4, s = "**Market Stats**" ++ t1 ++ "**Demographic Stats**" ++ t2 ++
      "**Investor Stats**" ++ t3 ++ "**Scoring Stats**" ++ t4 := by
  obtain ⟨pop, avg, hp, hq, hs⟩ := raw_data_string_ok r s h
  exact ⟨marketBlock r, demoBlock r pop, investorBlock r avg, scoringBlock r, hs⟩

/-- C7 witness: the headers extracted from the concrete report of
`c3rec`. -/
theorem c7_witness :
    ∃ t1 t2 t3 t4, c3out = "**Market Stats**" ++ t1 ++ "**Demographic Stats**" ++ t2 ++
      "**Investor Stats**" ++ t3 ++ "**Scoring Stats**" ++ t4 :=
  c7_category_headers c3rec c3out (by rfl)

/-! ## C8 — analysis failures are non-fatal -/

/-- C8: once the pipeline has a report (`raw_data_string` succeeded), every
analysis-collaborator behaviour — raising, returning `None`, returning the
empty string, or returning text — still yields a completed request: the
handler sends the data embed before the AI call, finishes without an
exception, and substitutes the error text or `aiEmptyMsg` placeholder for
the analysis block in the failure cases. -/
theorem c8_analysis_nonfatal (content : String) (geo : GeoResult) (load : Option (List Record))
    (api : ApiOutcome) (county : String) (row : Record) (raw : String)
    (hgeo : get_county_from_address geo = some county)
    (hdata : get_market_data load county = some row)
    (hraw : raw_data_string row = Except.ok raw)
    (hstart : pyStartsWith content "!market" = true)
    (haddr : ¬ pyStrip (pyReplace content "!market" "") = "") :
    ∃ ai, analyze_market_with_ai row api = Except.ok ai ∧
      on_message false content geo load api =
        ⟨[Action.send ("🔬 Analyzing `" ++ pyStrip (pyReplace content "!market" "") ++ "`..."),
          Action.editTo "✅ Data found! Here are the stats:",
          Action.sendEmbed ("Raw Data for " ++ countyTitle row) raw,
          Action.send "🤖 Now sending to AI for analysis and talking points...",
          Action.editEmbedTo "" "AI Analysis & Conversation Starters" ai], false⟩ ∧
      (∀ msg, api = ApiOutcome.apiRaise msg →
        ai = "Error: Could not get analysis from AI. Details: " ++ msg) ∧
      (api = ApiOutcome.apiOk none → ai = aiEmptyMsg) ∧
      (api = ApiOutcome.apiOk (some "") → ai = aiEmptyMsg) := by
  obtain ⟨pop, avg, hp, hq, hs⟩ := raw_data_string_ok row raw hraw
  obtain ⟨t, ht⟩ : ∃ t, data_string row = Except.ok t := by
    unfold data_string; rw [hq]; exact ⟨_, rfl⟩
  have main : ∃ ai, analyze_market_with_ai row api = Except.ok ai ∧
      (∀ msg, api = ApiOutcome.apiRaise msg →
        ai = "Error: Could not get analysis from AI. Details: " ++ msg) ∧
      (api = ApiOutcome.apiOk none → ai = aiEmptyMsg) ∧
      (api = ApiOutcome.apiOk (some "") → ai = aiEmptyMsg) := by
    cases api with
    | apiRaise msg =>
      refine ⟨"Error: Could not get analysis from AI. Details: " ++ msg, ?_, ?_, ?_, ?_⟩
      · unfold analyze_market_with_ai; rw [ht]; rfl
      · intro m hm; injection hm with h2; rw [h2]
      · intro hm; cases hm
      · intro hm; cases hm
    | apiOk content2 =>
      cases content2 with
      | none =>
        refine ⟨aiEmptyMsg, ?_, ?_, ?_, ?_⟩
        · unfold analyze_market_with_ai; rw [ht]; rfl
        · intro m hm; cases hm
        · intro hm; rfl
        · intro hm; injection hm with h2; cases h2
      | some c =>
        refine ⟨if c == "" then aiEmptyMsg else c, ?_, ?_, ?_, ?_⟩
        · unfold analyze_market_with_ai; rw [ht]; rfl
        · intro m hm; cases hm
        · intro hm; injection hm with h2; cases h2
        · intro hm
          injection hm with h2
          injection h2 with h3
          rw [h3]
          rfl
  obtain ⟨ai, hai, f1, f2, f3⟩ := main
  refine ⟨ai, hai, ?_, f1, f2, f3⟩
  unfold on_message
  simp [hstart, haddr, hgeo, hdata, hraw, hai]

/-- C8 witness: a complete concrete run in which the analysis collaborator
returns the empty string; the request completes with the placeholder. -/
theorem c8_witness :
    ∃ ai, analyze_market_with_ai rowWitness (ApiOutcome.apiOk (some "")) = Except.ok ai ∧
      on_message false "!market 155 Edinburg Dr" geoCabarrus (some [rowWitness])
          (ApiOutcome.apiOk (some "")) =
        ⟨[Action.send ("🔬 Analyzing `" ++
            pyStrip (pyReplace "!market 155 Edinburg Dr" "!market" "") ++ "`..."),
          Action.editTo "✅ Data found! Here are the stats:",
          Action.sendEmbed ("Raw Data for " ++ countyTitle rowWitness) c3out,
          Action.send "🤖 Now sending to AI for analysis and talking points...",
          Action.editEmbedTo "" "AI Analysis & Conversation Starters" ai], false⟩ ∧
      (∀ msg, ApiOutcome.apiOk (some "") = ApiOutcome.apiRaise msg →
        ai = "Error: Could not get analysis from AI. Details: " ++ msg) ∧
      (ApiOutcome.apiOk (some "") = ApiOutcome.apiOk none → ai = aiEmptyMsg) ∧
      (ApiOutcome.apiOk (some "") = ApiOutcome.apiOk (some "") → ai = aiEmptyMsg) :=
  c8_analysis_nonfatal "!market 155 Edinburg Dr" geoCabarrus (some [rowWitness])
    (ApiOutcome.apiOk (some "")) "Cabarrus, NC" rowWitness c3out (by decide) (by decide)
    (by rfl) (by rfl) (by decide)

/-! ## C9 — report assembly is partial in `Population` -/

/-- C9: for every record with no `Population` key, building the report
raises (the `:,` format spec is applied to the string default `"N/A"`), so
assembly produces no report for such records. -/
theorem c9_population_required (r : Record) (h : Record.get? r "Population" = none) :
    raw_data_string r = Except.error () :=
  raw_error_of_no_population r h

/-- C9 witness: a record with market data but no population makes the
report raise. -/
theorem c9_witness :
    raw_data_string [("Days_on_Market", Value.int 30)] = Except.error () :=
  c9_population_required [("Days_on_Market", Value.int 30)] rfl

/-! ## C10 — the bot ignores its own messages -/

/-- C10: a message authored by the bot itself produces no action and no
exception, whatever its content and whatever the collaborators would do —
the pipeline is never invoked. -/
theorem c10_self_message (content : String) (geo : GeoResult)
    (load : Option (List Record)) (api : ApiOutcome) :
    on_message true content geo load api = ⟨[], false⟩ := rfl

end MarketBot
